import Mathlib

/-
Shallow embedding of `src/react_agent/tools.py`: the two agent tools
`get_weather` and `search_104_jobs`.  Decoded JSON payloads are modelled by
the inductive type `Py` (the values `json.load` can produce, with numbers
restricted to integers, which is all the code ever compares or produces).
Python's fallible operations on such values (`.get` on a non-dict, indexing,
`in`, `.startswith`, `", ".join`) are modelled in an `Except PyErr` monad so
that exceptions escaping to the caller are observable.  Network calls are
modelled by oracle arguments (`Option Py`: `none` is a transport/parse
failure collapsed to Python `None` by `_fetch_json`); each tool returns its
result together with the number of network calls it performed.
-/

namespace ReactAgent

/-- A decoded JSON value as produced by `json.load` (numbers as integers). -/
inductive Py where
  | null : Py
  | bool : Bool → Py
  | int : Int → Py
  | str : String → Py
  | list : List Py → Py
  | dict : List (String × Py) → Py

/-- Python truthiness (`bool(x)`) of a decoded JSON value. -/
def truthy : Py → Bool
  | .null => false
  | .bool b => b
  | .int n => n ≠ 0
  | .str s => s ≠ ""
  | .list xs => !xs.isEmpty
  | .dict kvs => !kvs.isEmpty

/-- The exception classes the tool bodies can raise past the `except` clauses. -/
inductive PyErr where
  | attributeError : PyErr
  | typeError : PyErr
  | keyError : PyErr
  | indexError : PyErr
deriving Repr, DecidableEq

/-- Key lookup in a Python dict built from a JSON object: the last binding of
a duplicated key wins, as in `json.load`. -/
def lookupLast (kvs : List (String × Py)) (k : String) : Option Py :=
  kvs.foldl (fun acc kv => if kv.1 = k then some kv.2 else acc) none

/-- `x.get(k, d)`: raises `AttributeError` unless `x` is a dict. -/
def pyGetD : Py → String → Py → Except PyErr Py
  | .dict kvs, k, d => .ok ((lookupLast kvs k).getD d)
  | _, _, _ => .error .attributeError

/-- `x.get(k)` (default `None`). -/
def pyGet (x : Py) (k : String) : Except PyErr Py :=
  pyGetD x k .null

/-- `x[k]` with a string key. -/
def pySubscr : Py → String → Except PyErr Py
  | .dict kvs, k =>
    match lookupLast kvs k with
    | some v => .ok v
    | none => .error .keyError
  | _, _ => .error .typeError

/-- `x[0]`: first element of a list, first character of a string. -/
def pyIndex0 : Py → Except PyErr Py
  | .list (x :: _) => .ok x
  | .list [] => .error .indexError
  | .str s =>
    match s.data with
    | c :: _ => .ok (.str (String.mk [c]))
    | [] => .error .indexError
  | .dict _ => .error .keyError
  | _ => .error .typeError

/-- Whether `small` is a prefix of `big` (character lists). -/
def isPrefixCL : List Char → List Char → Bool
  | [], _ => true
  | _ :: _, [] => false
  | a :: as, b :: bs => a = b && isPrefixCL as bs

/-- Whether `small` occurs as a contiguous run inside `big`. -/
def isSubstrCL (small : List Char) : List Char → Bool
  | [] => isPrefixCL small []
  | c :: rest => isPrefixCL small (c :: rest) || isSubstrCL small rest

/-- Python `==` between a decoded value and a string literal. -/
def pyEqStr : Py → String → Bool
  | .str s, k => s = k
  | _, _ => false

/-- `k in x` for a string `k`: key membership in a dict, element membership in
a list, substring test in a string; `TypeError` otherwise. -/
def pyContains : Py → String → Except PyErr Bool
  | .dict kvs, k => .ok (lookupLast kvs k).isSome
  | .list xs, k => .ok (xs.any (fun x => pyEqStr x k))
  | .str s, k => .ok (isSubstrCL k.data s.data)
  | _, _ => .error .typeError

/-- `a or b` on decoded values (`b` only when `a` is falsy). -/
def pyOr (a b : Py) : Py :=
  if truthy a then a else b

/-- The characters Python's `str.strip()` / regex `\s` treat as whitespace. -/
def isPySpace (c : Char) : Bool :=
  c = ' ' || c = '\t' || c = '\n' || c = '\r' || c = '\x0b' || c = '\x0c' ||
  c = '\x1c' || c = '\x1d' || c = '\x1e' || c = '\x1f' || c = '\x85' || c = '\xa0' ||
  c = ' ' || (' ' ≤ c && c ≤ ' ') || c = ' ' || c = ' ' ||
  c = ' ' || c = ' ' || c = '　'

/-- Strip characters satisfying `p` from both ends of a string. -/
def stripP (p : Char → Bool) (s : String) : String :=
  String.mk (((s.data.dropWhile p).reverse.dropWhile p).reverse)

/-- Python `str.strip()` (no arguments). -/
def pyStrip (s : String) : String :=
  stripP isPySpace s

/-- Python `str.strip(" ,;")`. -/
def stripSpaceCommaSemi (s : String) : String :=
  stripP (fun c => c = ' ' || c = ',' || c = ';') s

/-- Consume a maximal run of regex `\s` characters, returning its length. -/
def skipSpaces : List Char → Nat × List Char
  | [] => (0, [])
  | c :: rest =>
    if isPySpace c then
      let (n, r) := skipSpaces rest
      (n + 1, r)
    else (0, c :: rest)

/-- Consume a maximal run of decimal digits. -/
def takeDigits : List Char → List Char × List Char
  | [] => ([], [])
  | c :: rest =>
    if c.isDigit then
      let (d, r) := takeDigits rest
      (c :: d, r)
    else ([], c :: rest)

/-- Match the regex `page\s*=\s*(\d+)` (IGNORECASE) at the head of the input;
returns the length of the whole match and the captured digits. -/
def matchPageAt : List Char → Option (Nat × List Char)
  | p :: a :: g :: e :: rest =>
    if p.toLower = 'p' && a.toLower = 'a' && g.toLower = 'g' && e.toLower = 'e' then
      let (n1, r1) := skipSpaces rest
      match r1 with
      | '=' :: r2 =>
        let (n2, r3) := skipSpaces r2
        let (ds, _) := takeDigits r3
        if ds.isEmpty then none else some (4 + n1 + 1 + n2 + ds.length, ds)
      | _ => none
    else none
  | _ => none

/-- `re.search` for the page directive: leftmost match, as `(start, stop, digits)`. -/
def findPageDirective : List Char → Nat → Option (Nat × Nat × List Char)
  | [], _ => none
  | c :: rest, i =>
    match matchPageAt (c :: rest) with
    | some (len, ds) => some (i, i + len, ds)
    | none => findPageDirective rest (i + 1)

/-- `int` of a nonempty string of decimal digits. -/
def digitsToNat (ds : List Char) : Nat :=
  ds.foldl (fun acc c => acc * 10 + (c.toNat - 48)) 0

/-- Lines 88-104 of `tools.py`: strip the keyword, extract the first
`page=<digits>` directive (clamped to at least 1, default 1), and remove the
matched token together with surrounding commas/semicolons/whitespace. -/
def cleanKeywordAndPage (keyword : String) : String × Nat :=
  let ck := pyStrip keyword
  match findPageDirective ck.data 0 with
  | some (s, e, ds) =>
    (pyStrip (stripSpaceCommaSemi (String.mk (ck.data.take s ++ ck.data.drop e))),
     max (digitsToNat ds) 1)
  | none => (ck, 1)

/-- The `resolved_location` / `latitude` / `longitude` triple extracted from a
geocoding match, together with the composed display name. -/
structure GeoInfo where
  latitude : Py
  longitude : Py
  resolvedName : String

/-- The weather result mapping (lines 70-79 of `tools.py`). -/
structure WeatherResult where
  resolvedLocation : String
  latitude : Py
  longitude : Py
  current : Py
  currentUnits : Py
  daily : Py
  dailyUnits : Py
  source : String

/-- `", ".join(parts)`: `TypeError` at the first non-string item. -/
def strListOf : List Py → Except PyErr (List String)
  | [] => .ok []
  | .str s :: ps => Except.bind (strListOf ps) fun ss => .ok (s :: ss)
  | _ :: _ => .error .typeError

/-- `", ".join(parts)` on decoded values. -/
def joinComma (parts : List Py) : Except PyErr String :=
  Except.bind (strListOf parts) fun ss => .ok (String.intercalate ", " ss)

/-- `x is None`. -/
def isNull : Py → Bool
  | .null => true
  | _ => false

/-- Lines 51-54 of `tools.py`: compose the display name from the geocoding
match `m` by keeping the truthy `name`/`admin1`/`country` fields; fall back to
the trimmed input location when none are truthy. -/
def resolveName (m : Py) (location : String) : Except PyErr String :=
  Except.bind (pyGet m "name") fun n =>
  Except.bind (pyGet m "admin1") fun a =>
  Except.bind (pyGet m "country") fun c =>
  let parts := [n, a, c].filter truthy
  if parts.isEmpty then .ok (pyStrip location)
  else joinComma parts

/-- Lines 43-54 of `tools.py`: everything `get_weather` does with a decoded
geocoding payload `g` before the forecast request.  `ok none` is the `return
None` paths (falsy payload, falsy `results`, missing latitude/longitude). -/
def geoResolve (location : String) (g : Py) : Except PyErr (Option GeoInfo) :=
  if truthy g = false then .ok none
  else
    Except.bind (pyGet g "results") fun results =>
    if truthy results = false then .ok none
    else
      Except.bind (pySubscr g "results") fun rs =>
      Except.bind (pyIndex0 rs) fun m =>
      Except.bind (pyGet m "latitude") fun lat =>
      Except.bind (pyGet m "longitude") fun lon =>
      if isNull lat || isNull lon then .ok none
      else
        Except.bind (resolveName m location) fun nm =>
        .ok (some { latitude := lat, longitude := lon, resolvedName := nm })

/-- Lines 67-79 of `tools.py`: what `get_weather` does with a decoded forecast
payload `f` (falsy payload or missing `current` key yields `None`). -/
def forecastStage (info : GeoInfo) (f : Py) : Except PyErr (Option WeatherResult) :=
  if truthy f = false then .ok none
  else
    Except.bind (pyContains f "current") fun hasCur =>
    if hasCur = false then .ok none
    else
      Except.bind (pyGet f "current") fun cur =>
      Except.bind (pyGet f "current_units") fun curU =>
      Except.bind (pyGet f "daily") fun d =>
      Except.bind (pyGet f "daily_units") fun dU =>
      .ok (some { resolvedLocation := info.resolvedName, latitude := info.latitude,
                  longitude := info.longitude, current := cur, currentUnits := curU,
                  daily := d, dailyUnits := dU, source := "https://open-meteo.com/" })

/-- The part of `get_weather` after a geocoding response `g` was decoded:
resolve it, then (on success) perform the forecast call. -/
def geoStage (location : String) (g : Py) (foreResp : Option Py) :
    Except PyErr (Option WeatherResult) × Nat :=
  match geoResolve location g with
  | .error e => (.error e, 1)
  | .ok none => (.ok none, 1)
  | .ok (some info) =>
    match foreResp with
    | none => (.ok none, 2)
    | some f => (forecastStage info f, 2)

/-- `get_weather` (lines 15-79 of `tools.py`).  `geoResp`/`foreResp` are the
decoded responses of the geocoding and forecast requests (`none` = `_fetch_json`
returned `None`).  The second component counts the network calls performed. -/
def getWeather (location : String) (geoResp foreResp : Option Py) :
    Except PyErr (Option WeatherResult) × Nat :=
  if pyStrip location = "" then (.ok none, 0)
  else
    match geoResp with
    | none => (.ok none, 1)
    | some g => geoStage location g foreResp

/-- One normalized job listing (lines 152-166 of `tools.py`). -/
structure JobListing where
  jobName : Py
  company : Py
  location : Py
  salary : Py
  postedDate : Py
  jobUrl : Py
  description : Py

/-- The job search result mapping (lines 169-175 of `tools.py`). -/
structure JobSearchResult where
  keyword : String
  page : Py
  totalCount : Py
  jobs : List JobListing
  source : String

/-- `s.startswith("//")`. -/
def startsWithSlashes (s : String) : Bool :=
  isPrefixCL ['/', '/'] s.data

/-- Lines 149-151 of `tools.py`: `if job_url and job_url.startswith("//")`,
rewriting a protocol-relative URL to `https:`; `.startswith` on a truthy
non-string raises `AttributeError`. -/
def rewriteUrl (ju : Py) : Except PyErr Py :=
  if truthy ju = false then .ok ju
  else
    match ju with
    | .str s => .ok (if startsWithSlashes s then .str ("https:" ++ s) else .str s)
    | _ => .error .attributeError

/-- Lines 148-166 of `tools.py`: project one raw job record into a listing. -/
def projectJob (job : Py) : Except PyErr JobListing :=
  Except.bind (pyGetD job "link" (.dict [])) fun link =>
  Except.bind (pyGet link "job") fun ju =>
  Except.bind (rewriteUrl ju) fun jobUrl =>
  Except.bind (pyGet job "jobName") fun jn =>
  Except.bind (pyGet job "custName") fun cn =>
  Except.bind (pyGet job "jobAddrNoDesc") fun loc =>
  Except.bind (pyGet job "salaryDesc") fun sal =>
  Except.bind (pyGet job "appearDate") fun ad =>
  Except.bind (pyGet job "descWithoutHighlight") fun d1 =>
  Except.bind (pyGet job "description") fun d2 =>
  .ok { jobName := jn, company := cn, location := loc, salary := sal, postedDate := ad,
        jobUrl := jobUrl, description := pyOr (pyOr d1 d2) (.str "") }

/-- `job_list[:10]`. -/
def pySlice10 : Py → Except PyErr Py
  | .list xs => .ok (.list (xs.take 10))
  | .str s => .ok (.str (String.mk (s.data.take 10)))
  | _ => .error .typeError

/-- `for job in x`: elements of a list, characters of a string, keys of a dict. -/
def pyIterList : Py → Except PyErr (List Py)
  | .list xs => .ok xs
  | .str s => .ok (s.data.map (fun c => .str (String.mk [c])))
  | .dict kvs => .ok (kvs.map (fun kv => .str kv.1))
  | _ => .error .typeError

/-- Sequence `projectJob` over the iterated entries, left to right, stopping at
the first exception (the `for` loop of lines 147-167). -/
def mapProject : List Py → Except PyErr (List JobListing)
  | [] => .ok []
  | j :: js =>
    Except.bind (projectJob j) fun r =>
    Except.bind (mapProject js) fun rs =>
    .ok (r :: rs)

/-- `payload.get("status") != 200` is false exactly when the field is the
integer 200. -/
def pyEq200 : Py → Bool
  | .int n => n = 200
  | _ => false

/-- Lines 146-167 of `tools.py`: from the `data` mapping, take the first 10
entries of `data.get("list") or []` and project them. -/
def extractJobs (data : Py) : Except PyErr (List JobListing) :=
  Except.bind (pyGet data "list") fun jlRaw =>
  Except.bind (pySlice10 (pyOr jlRaw (.list []))) fun sliced =>
  Except.bind (pyIterList sliced) fun items =>
  mapProject items

/-- Lines 141-175 of `tools.py`: what `search_104_jobs` does with a decoded
payload after the request (falsy payload or `status != 200` yields `None`). -/
def jobsStage (cleaned : String) (page : Nat) (payload : Py) :
    Except PyErr (Option JobSearchResult) :=
  if truthy payload = false then .ok none
  else
    Except.bind (pyGet payload "status") fun status =>
    if pyEq200 status = false then .ok none
    else
      Except.bind (pyGet payload "data") fun dataRaw =>
      let data := pyOr dataRaw (.dict [])
      Except.bind (extractJobs data) fun jobs =>
      Except.bind (pyGetD data "query" (.dict [])) fun qRaw =>
      Except.bind (pyGetD qRaw "page" (.int page)) fun pageVal =>
      Except.bind (pyGet data "totalCount") fun tc =>
      .ok (some { keyword := cleaned, page := pageVal, totalCount := tc, jobs := jobs,
                  source := "https://www.104.com.tw/" })

/-- `search_104_jobs` (lines 82-175 of `tools.py`).  `resp` is the decoded
response of the job-search request (`none` = `_fetch_json` returned `None`).
The second component counts the network calls performed. -/
def search104Jobs (keyword : String) (resp : Option Py) :
    Except PyErr (Option JobSearchResult) × Nat :=
  if pyStrip keyword = "" then (.ok none, 0)
  else if (cleanKeywordAndPage keyword).1 = "" then (.ok none, 0)
  else
    match resp with
    | none => (.ok none, 1)
    | some payload =>
      (jobsStage (cleanKeywordAndPage keyword).1 (cleanKeywordAndPage keyword).2 payload, 1)

/-- A geocoding-match field (`name`/`admin1`/`country`) whose value is either
absent, a string, or falsy: exactly the values the display-name join accepts. -/
def wfField (v : Option Py) : Bool :=
  match v with
  | none => true
  | some (.str _) => true
  | some p => !truthy p

/-- A truthy `results` value the rest of `get_weather` handles without an
exception: a list headed by a dict with well-shaped name fields. -/
def wfResultsVal : Py → Bool
  | .list (.dict mk :: _) =>
    wfField (lookupLast mk "name") && wfField (lookupLast mk "admin1") &&
    wfField (lookupLast mk "country")
  | _ => false

/-- The `results` entry of a geocoding payload: absent, falsy, or well shaped. -/
def wfResults : Option Py → Bool
  | none => true
  | some r => !truthy r || wfResultsVal r

/-- Geocoding payloads on which `get_weather` is exception-free: falsy, or a
dict whose truthy `results` value is a list headed by a dict with
string-or-falsy name fields. -/
def wfGeoPayload : Py → Bool
  | .dict kvs => !truthy (Py.dict kvs) || wfResults (lookupLast kvs "results")
  | g => !truthy g

/-- Forecast payloads on which `get_weather` is exception-free: falsy or a dict. -/
def wfForecast : Py → Bool
  | .dict _ => true
  | f => !truthy f

/-- A raw job record's `link` value: absent, or a dict whose `job` entry is
absent, falsy, or a string. -/
def wfLink (v : Option Py) : Bool :=
  match v with
  | none => true
  | some (.dict lk) =>
    (match lookupLast lk "job" with
     | none => true
     | some (.str _) => true
     | some u => !truthy u)
  | some _ => false

/-- Raw job records on which the projection is exception-free. -/
def wfJob (j : Py) : Bool :=
  match j with
  | .dict jk => wfLink (lookupLast jk "link")
  | _ => false

/-- The `query` entry of the `data` mapping: absent or itself a dict. -/
def wfQuery : Option Py → Bool
  | none => true
  | some (.dict _) => true
  | some _ => false

/-- The effective job list (`data.get("list") or []`): a list whose first 10
entries are well shaped (only those are projected). -/
def wfJobList : Py → Bool
  | .list items => (items.take 10).all wfJob
  | _ => false

/-- The effective `data` value (`payload.get("data") or {}`): a dict with a
well-shaped job list and query entry. -/
def wfData : Py → Bool
  | .dict dkvs =>
    wfJobList (pyOr ((lookupLast dkvs "list").getD .null) (.list [])) &&
    wfQuery (lookupLast dkvs "query")
  | _ => false

/-- Job-search payloads on which `search_104_jobs` is exception-free: falsy, a
dict without `status: 200`, or a dict whose effective `data` is well shaped. -/
def wfJobPayload : Py → Bool
  | .dict kvs =>
    !truthy (Py.dict kvs) ||
    (!pyEq200 ((lookupLast kvs "status").getD .null) ||
      wfData (pyOr ((lookupLast kvs "data").getD .null) (.dict [])))
  | p => !truthy p

/-- Spec-side restatement of display-name composition, for comparison with
`resolveName`: join the non-empty fields with `", "`, falling back to the
trimmed input location when all are empty. -/
def joinNonEmptySpec (location : String) (parts : List String) : String :=
  let ps := parts.filter (fun s => s ≠ "")
  if ps.isEmpty then pyStrip location else String.intercalate ", " ps

end ReactAgent



namespace ReactAgent

theorem pyStrip_eq_empty_of_space {s : String} (h : ∀ c ∈ s.data, isPySpace c = true) :
    pyStrip s = "" := by
  have h1 : s.data.dropWhile isPySpace = [] := List.dropWhile_eq_nil_iff.mpr (by simpa using h)
  unfold pyStrip stripP
  rw [h1]
  rfl

theorem lookupLast_nil (k : String) : lookupLast [] k = none := rfl

theorem lookupLast_ne_nil {kvs : List (String × Py)} {k : String} {v : Py}
    (h : lookupLast kvs k = some v) : kvs ≠ [] := by
  intro hk
  rw [hk, lookupLast_nil] at h
  exact Option.noConfusion h

theorem jobsStage_bad_payload_none (c : String) (pg : Nat) (p : Py)
    (h : truthy p = false ∨ ∃ kvs, p = Py.dict kvs ∧
      pyEq200 ((lookupLast kvs "status").getD Py.null) = false) :
    jobsStage c pg p = .ok none := by
  rcases h with h | ⟨kvs, rfl, h⟩
  · unfold jobsStage
    rw [h]
    rfl
  · unfold jobsStage
    cases htv : truthy (Py.dict kvs) with
    | false => rfl
    | true =>
      simp only [pyGet, pyGetD, Except.bind, h]
      rfl

/-- C2: for every input string consisting only of whitespace characters
(including the empty string), both `get_weather` and `search_104_jobs` return
`None` immediately, performing zero network calls, whatever the network
oracles would answer. -/
theorem c2_whitespace_input_no_network_call (s : String)
    (h : ∀ c ∈ s.data, isPySpace c = true) :
    ∀ geoResp foreResp jobResp : Option Py,
      getWeather s geoResp foreResp = (.ok none, 0) ∧
      search104Jobs s jobResp = (.ok none, 0) := by
  have hs : pyStrip s = "" := pyStrip_eq_empty_of_space h
  intro geoResp foreResp jobResp
  constructor
  · unfold getWeather
    rw [hs]
    rfl
  · unfold search104Jobs
    rw [hs]
    rfl

theorem c2_whitespace_input_no_network_call_witness :
    getWeather " \t\n " none none = (.ok none, 0) ∧
    search104Jobs " \t\n " (some (.dict [("status", .int 200)])) = (.ok none, 0) := by
  have h := c2_whitespace_input_no_network_call " \t\n " (by decide)
    none none (some (.dict [("status", .int 200)]))
  exact h

/-- C4: the job keyword "Python page=2" yields cleaned keyword "Python" and
requested page 2 (the first case-insensitive `page=<digits>` token, clamped to
at least 1, is removed with surrounding commas/semicolons/whitespace), and
`search_104_jobs` carries both into its result. -/
theorem c4_page_directive_parsed :
    cleanKeywordAndPage "Python page=2" = ("Python", 2) ∧
    (search104Jobs "Python page=2" (some (.dict [("status", .int 200)]))).1 =
      .ok (some { keyword := "Python", page := .int 2, totalCount := .null, jobs := [],
                  source := "https://www.104.com.tw/" }) :=
  ⟨by decide, rfl⟩

/-- C5: whenever the keyword contains no `page=<digits>` match (e.g. a
malformed directive such as `page=abc`), the requested page falls back to 1. -/
theorem c5_malformed_page_defaults_to_one (kw : String)
    (h : findPageDirective (pyStrip kw).data 0 = none) :
    (cleanKeywordAndPage kw).2 = 1 := by
  unfold cleanKeywordAndPage
  simp only [h]

theorem c5_malformed_page_defaults_to_one_witness :
    (cleanKeywordAndPage "Python page=abc").2 = 1 :=
  c5_malformed_page_defaults_to_one "Python page=abc" (by decide)

/-- C6: a job-search response whose decoded payload is absent or falsy, or
whose `status` field is not the integer 200, makes `search_104_jobs` return
`None`. -/
theorem c6_bad_status_returns_none (kw : String) (resp : Option Py)
    (h : resp = none ∨ ∃ p, resp = some p ∧
      (truthy p = false ∨ ∃ kvs, p = Py.dict kvs ∧
        pyEq200 ((lookupLast kvs "status").getD Py.null) = false)) :
    (search104Jobs kw resp).1 = .ok none := by
  unfold search104Jobs
  by_cases h1 : pyStrip kw = ""
  · rw [if_pos h1]
  · rw [if_neg h1]
    by_cases h2 : (cleanKeywordAndPage kw).1 = ""
    · rw [if_pos h2]
    · rw [if_neg h2]
      rcases h with rfl | ⟨p, rfl, hp⟩
      · rfl
      · exact jobsStage_bad_payload_none (cleanKeywordAndPage kw).1
          (cleanKeywordAndPage kw).2 p hp

theorem c6_bad_status_returns_none_witness :
    (search104Jobs "python" (some (.dict [("status", .int 500)]))).1 = .ok none :=
  c6_bad_status_returns_none "python" (some (.dict [("status", .int 500)]))
    (Or.inr ⟨_, rfl, Or.inr ⟨_, rfl, by decide⟩⟩)

end ReactAgent

namespace ReactAgent

theorem forecastStage_none_of_bad (info : GeoInfo) (f : Py)
    (h : truthy f = false ∨ ∃ kvs, f = Py.dict kvs ∧
      (lookupLast kvs "current").isSome = false) :
    forecastStage info f = .ok none := by
  rcases h with h | ⟨kvs, rfl, h⟩
  · unfold forecastStage
    rw [h]
    rfl
  · unfold forecastStage
    cases htv : truthy (Py.dict kvs) with
    | false => rfl
    | true =>
      simp only [pyContains, Except.bind, h]
      rfl

/-- C3: when the geocoding stage succeeds (the trimmed location is nonempty
and `geoResolve` produces a match) but the forecast call fails, returns a
falsy payload, or returns a dict without a `current` key, `get_weather`
returns `None` (after both network calls) and never a partial result. -/
theorem c3_forecast_failure_yields_none (loc : String) (g : Py) (info : GeoInfo)
    (fore : Option Py)
    (hloc : ¬ pyStrip loc = "")
    (hgeo : geoResolve loc g = .ok (some info))
    (hfore : fore = none ∨ ∃ f, fore = some f ∧
      (truthy f = false ∨ ∃ kvs, f = Py.dict kvs ∧
        (lookupLast kvs "current").isSome = false)) :
    getWeather loc (some g) fore = (.ok none, 2) := by
  unfold getWeather
  rw [if_neg hloc]
  show geoStage loc g fore = (.ok none, 2)
  unfold geoStage
  rw [hgeo]
  rcases hfore with rfl | ⟨f, rfl, hf⟩
  · rfl
  · show (forecastStage info f, 2) = (.ok none, 2)
    rw [forecastStage_none_of_bad info f hf]

theorem c3_forecast_failure_yields_none_witness :
    getWeather "Taipei"
      (some (.dict [("results", .list [.dict [("latitude", .int 25), ("longitude", .int 121),
        ("name", .str "Taipei")]])]))
      (some (.dict [("daily", .list [.int 1])]))
      = (.ok none, 2) :=
  c3_forecast_failure_yields_none "Taipei"
    (.dict [("results", .list [.dict [("latitude", .int 25), ("longitude", .int 121),
      ("name", .str "Taipei")]])])
    { latitude := .int 25, longitude := .int 121, resolvedName := "Taipei" }
    (some (.dict [("daily", .list [.int 1])]))
    (by decide) rfl
    (Or.inr ⟨_, rfl, Or.inr ⟨_, rfl, rfl⟩⟩)

/-- C9: for a geocoding match with string `name`/`admin1`/`country` fields,
the composed display name joins the non-empty fields with `", "` (skipping
empty parts, never duplicating commas) and falls back to the trimmed input
location when all three are empty; in particular name="Taipei", admin1="",
country="Taiwan" yields "Taipei, Taiwan". -/
theorem c9_display_name_composition (loc n a c : String) :
    resolveName (.dict [("name", .str n), ("admin1", .str a), ("country", .str c)]) loc
      = .ok (joinNonEmptySpec loc [n, a, c]) ∧
    resolveName (.dict [("name", .str "Taipei"), ("admin1", .str ""), ("country", .str "Taiwan")])
      "taipei" = .ok "Taipei, Taiwan" := by
  constructor
  · show (if ([Py.str n, Py.str a, Py.str c].filter truthy).isEmpty
          then Except.ok (pyStrip loc)
          else joinComma ([Py.str n, Py.str a, Py.str c].filter truthy))
        = Except.ok (joinNonEmptySpec loc [n, a, c])
    by_cases hn : n = "" <;> by_cases ha : a = "" <;> by_cases hc : c = "" <;>
      simp [truthy, hn, ha, hc, joinComma, strListOf, joinNonEmptySpec, Except.bind,
        String.intercalate]
  · rfl

end ReactAgent

namespace ReactAgent

theorem cleanKeyword_of_strip_empty {kw : String} (h : pyStrip kw = "") :
    cleanKeywordAndPage kw = ("", 1) := by
  unfold cleanKeywordAndPage
  rw [h]
  rfl

theorem truthy_dict_of_ne_nil {kvs : List (String × Py)} (h : kvs ≠ []) :
    truthy (Py.dict kvs) = true := by
  simp [truthy, h]

/-- Value-shape consequences of `wfLink` are used through this lemma:
`rewriteUrl` succeeds on any string and on any falsy value. -/
theorem rewriteUrl_ok_of_wf {u : Py} (h : truthy u = false ∨ ∃ s, u = Py.str s) :
    ∃ w, rewriteUrl u = .ok w := by
  rcases h with h | ⟨s, rfl⟩
  · refine ⟨u, ?_⟩
    unfold rewriteUrl
    rw [h]
    rfl
  · unfold rewriteUrl
    cases ht : truthy (Py.str s) with
    | false => exact ⟨.str s, rfl⟩
    | true => exact ⟨_, rfl⟩

/-- The projection of a well-linked raw job record, written out in full. -/
theorem projectJob_dict_ok (jk lks : List (String × Py)) (w : Py)
    (hlink : (lookupLast jk "link").getD (Py.dict []) = Py.dict lks)
    (hw : rewriteUrl ((lookupLast lks "job").getD Py.null) = .ok w) :
    projectJob (Py.dict jk) = .ok
      { jobName := (lookupLast jk "jobName").getD Py.null,
        company := (lookupLast jk "custName").getD Py.null,
        location := (lookupLast jk "jobAddrNoDesc").getD Py.null,
        salary := (lookupLast jk "salaryDesc").getD Py.null,
        postedDate := (lookupLast jk "appearDate").getD Py.null,
        jobUrl := w,
        description := pyOr (pyOr ((lookupLast jk "descWithoutHighlight").getD Py.null)
          ((lookupLast jk "description").getD Py.null)) (Py.str "") } := by
  unfold projectJob
  simp only [pyGet, pyGetD, Except.bind, hlink, hw]

theorem projectJob_ok {j : Py} (h : wfJob j = true) : ∃ r, projectJob j = .ok r := by
  cases j with
  | dict jk =>
    have hlink : wfLink (lookupLast jk "link") = true := h
    cases hl : lookupLast jk "link" with
    | none =>
      refine ⟨_, projectJob_dict_ok jk [] Py.null ?_ rfl⟩
      rw [hl]
      rfl
    | some v =>
      rw [hl] at hlink
      cases v with
      | dict lk =>
        have hju : truthy ((lookupLast lk "job").getD Py.null) = false ∨
            ∃ s, (lookupLast lk "job").getD Py.null = Py.str s := by
          cases hj : lookupLast lk "job" with
          | none => exact Or.inl rfl
          | some u =>
            simp only [wfLink, hj] at hlink
            cases u with
            | str s => exact Or.inr ⟨s, rfl⟩
            | null => exact Or.inl rfl
            | bool b => exact Or.inl (by simpa using hlink)
            | int n => exact Or.inl (by simpa using hlink)
            | list xs => exact Or.inl (by simpa using hlink)
            | dict d => exact Or.inl (by simpa using hlink)
        obtain ⟨w, hw⟩ := rewriteUrl_ok_of_wf hju
        refine ⟨_, projectJob_dict_ok jk lk w ?_ hw⟩
        rw [hl]
        rfl
      | null => exact absurd hlink (by simp [wfLink])
      | bool b => exact absurd hlink (by simp [wfLink])
      | int n => exact absurd hlink (by simp [wfLink])
      | str s => exact absurd hlink (by simp [wfLink])
      | list xs => exact absurd hlink (by simp [wfLink])
  | null => exact absurd h (by simp [wfJob])
  | bool b => exact absurd h (by simp [wfJob])
  | int n => exact absurd h (by simp [wfJob])
  | str s => exact absurd h (by simp [wfJob])
  | list xs => exact absurd h (by simp [wfJob])

end ReactAgent

namespace ReactAgent

theorem mapProject_ok (l : List Py) (h : ∀ j ∈ l, ∃ r, projectJob j = .ok r) :
    ∃ rs, mapProject l = .ok rs ∧ rs.length = l.length := by
  induction l with
  | nil => exact ⟨[], rfl, rfl⟩
  | cons j js ih =>
    obtain ⟨r, hr⟩ := h j (List.mem_cons_self j js)
    obtain ⟨rs, hrs, hlen⟩ := ih (fun x hx => h x (List.mem_cons_of_mem _ hx))
    refine ⟨r :: rs, ?_, by simp [hlen]⟩
    unfold mapProject
    rw [hr, hrs]
    rfl

theorem extractJobs_list (dkvs : List (String × Py)) (items : List Py)
    (jobs : List JobListing)
    (hlist : pyOr ((lookupLast dkvs "list").getD Py.null) (.list []) = .list items)
    (hmap : mapProject (items.take 10) = .ok jobs) :
    extractJobs (.dict dkvs) = .ok jobs := by
  unfold extractJobs
  simp only [pyGet, pyGetD, Except.bind, hlist, pySlice10, pyIterList, hmap]

theorem jobsStage_dict_ok (c : String) (pg : Nat) (kvs dkvs qk : List (String × Py))
    (jobs : List JobListing)
    (hst : lookupLast kvs "status" = some (.int 200))
    (hdata : pyOr ((lookupLast kvs "data").getD Py.null) (.dict []) = .dict dkvs)
    (hjobs : extractJobs (.dict dkvs) = .ok jobs)
    (hq : (lookupLast dkvs "query").getD (.dict []) = .dict qk) :
    jobsStage c pg (.dict kvs) = .ok (some
      { keyword := c,
        page := (lookupLast qk "page").getD (.int pg),
        totalCount := (lookupLast dkvs "totalCount").getD .null,
        jobs := jobs,
        source := "https://www.104.com.tw/" }) := by
  have ht : truthy (Py.dict kvs) = true := truthy_dict_of_ne_nil (lookupLast_ne_nil hst)
  unfold jobsStage
  rw [ht]
  simp only [pyGet, pyGetD, Except.bind, hst, Option.getD_some, pyEq200, hdata, hjobs, hq]
  rfl

end ReactAgent

namespace ReactAgent

/-- C7: for every successful job payload whose (well-shaped) raw listing list
has more than 10 entries, the returned `jobs` sequence holds exactly 10
projected listings, namely the projections of the first 10 upstream entries
in their original order (`mapProject` of `items.take 10`). -/
theorem c7_jobs_truncated_to_ten (kw : String) (kvs dkvs qk : List (String × Py))
    (items : List Py)
    (hkw : (cleanKeywordAndPage kw).1 ≠ "")
    (hst : lookupLast kvs "status" = some (.int 200))
    (hdata : pyOr ((lookupLast kvs "data").getD Py.null) (.dict []) = .dict dkvs)
    (hlist : pyOr ((lookupLast dkvs "list").getD Py.null) (.list []) = .list items)
    (hlen : 10 < items.length)
    (hwf : ∀ j ∈ items.take 10, wfJob j = true)
    (hq : (lookupLast dkvs "query").getD (.dict []) = .dict qk) :
    ∃ res, search104Jobs kw (some (.dict kvs)) = (.ok (some res), 1) ∧
      res.jobs.length = 10 ∧ mapProject (items.take 10) = .ok res.jobs := by
  obtain ⟨jobs, hmap, hlenj⟩ := mapProject_ok _ (fun j hj => projectJob_ok (hwf j hj))
  have hex : extractJobs (.dict dkvs) = .ok jobs := extractJobs_list _ _ _ hlist hmap
  have hstrip : ¬ pyStrip kw = "" := by
    intro hsk
    exact hkw (by rw [cleanKeyword_of_strip_empty hsk])
  refine ⟨{ keyword := (cleanKeywordAndPage kw).1,
            page := (lookupLast qk "page").getD (.int (cleanKeywordAndPage kw).2),
            totalCount := (lookupLast dkvs "totalCount").getD .null,
            jobs := jobs, source := "https://www.104.com.tw/" }, ?_, ?_, hmap⟩
  · unfold search104Jobs
    rw [if_neg hstrip, if_neg hkw]
    show (jobsStage (cleanKeywordAndPage kw).1 (cleanKeywordAndPage kw).2 (Py.dict kvs), 1) = _
    rw [jobsStage_dict_ok (cleanKeywordAndPage kw).1 (cleanKeywordAndPage kw).2
      kvs dkvs qk jobs hst hdata hex hq]
  · show jobs.length = 10
    rw [hlenj, List.length_take]
    omega

theorem c7_jobs_truncated_to_ten_witness :
    ∃ res, search104Jobs "python"
        (some (.dict [("status", .int 200),
          ("data", .dict [("list", .list (List.replicate 11 (Py.dict [])))])]))
        = (.ok (some res), 1) ∧
      res.jobs.length = 10 ∧
      mapProject ((List.replicate 11 (Py.dict [])).take 10) = .ok res.jobs :=
  c7_jobs_truncated_to_ten "python"
    [("status", .int 200), ("data", .dict [("list", .list (List.replicate 11 (Py.dict [])))])]
    [("list", .list (List.replicate 11 (Py.dict [])))] [] (List.replicate 11 (Py.dict []))
    (by decide) rfl rfl rfl (by decide) (by decide) rfl

/-- C8: for every successful job payload (well-shaped `data` and `query`),
the result's `page` field is `data.query.page` when that key is present and
the originally requested (or default) page otherwise — both cases collapsed
into one `Option.getD` over the `query` lookup. -/
theorem c8_page_from_query_or_request (kw : String) (kvs dkvs qk : List (String × Py))
    (jobs : List JobListing)
    (hkw : (cleanKeywordAndPage kw).1 ≠ "")
    (hst : lookupLast kvs "status" = some (.int 200))
    (hdata : pyOr ((lookupLast kvs "data").getD Py.null) (.dict []) = .dict dkvs)
    (hjobs : extractJobs (.dict dkvs) = .ok jobs)
    (hq : (lookupLast dkvs "query").getD (.dict []) = .dict qk) :
    ∃ res, search104Jobs kw (some (.dict kvs)) = (.ok (some res), 1) ∧
      res.page = (lookupLast qk "page").getD (.int (cleanKeywordAndPage kw).2) := by
  have hstrip : ¬ pyStrip kw = "" := by
    intro hsk
    exact hkw (by rw [cleanKeyword_of_strip_empty hsk])
  refine ⟨{ keyword := (cleanKeywordAndPage kw).1,
            page := (lookupLast qk "page").getD (.int (cleanKeywordAndPage kw).2),
            totalCount := (lookupLast dkvs "totalCount").getD .null,
            jobs := jobs, source := "https://www.104.com.tw/" }, ?_, rfl⟩
  unfold search104Jobs
  rw [if_neg hstrip, if_neg hkw]
  show (jobsStage (cleanKeywordAndPage kw).1 (cleanKeywordAndPage kw).2 (Py.dict kvs), 1) = _
  rw [jobsStage_dict_ok (cleanKeywordAndPage kw).1 (cleanKeywordAndPage kw).2
    kvs dkvs qk jobs hst hdata hjobs hq]

theorem c8_page_from_query_or_request_witness :
    ∃ res, search104Jobs "python page=3"
        (some (.dict [("status", .int 200),
          ("data", .dict [("query", .dict [("page", .int 7)])])]))
        = (.ok (some res), 1) ∧
      res.page = (lookupLast [("page", Py.int 7)] "page").getD
        (.int (cleanKeywordAndPage "python page=3").2) :=
  c8_page_from_query_or_request "python page=3"
    [("status", .int 200), ("data", .dict [("query", .dict [("page", .int 7)])])]
    [("query", .dict [("page", .int 7)])] [("page", .int 7)] []
    (by decide) rfl rfl rfl rfl

/-- C10 is false as stated: with status 200 and a `data` mapping that lacks a
`list` entry but carries a non-mapping `query` value, `search_104_jobs` raises
`AttributeError` instead of returning a result mapping. -/
theorem c10_counterexample_nonmapping_query :
    (search104Jobs "python"
      (some (.dict [("status", .int 200), ("data", .dict [("query", .int 5)])]))).1
      = .error .attributeError ∧
    ∀ res, (search104Jobs "python"
      (some (.dict [("status", .int 200), ("data", .dict [("query", .int 5)])]))).1
      ≠ .ok (some res) :=
  ⟨rfl, fun _ h => Except.noConfusion h⟩

/-- C10 (amended): for every job-search payload with status 200 whose
effective job list is empty (data missing, `None`, or without a usable `list`)
and whose `query` entry, when present, is a mapping, `search_104_jobs` still
returns a result mapping whose `jobs` field is the empty list, with
`total_count` `None` when `totalCount` is absent. -/
theorem c10_empty_list_still_mapping (kw : String) (kvs dkvs qk : List (String × Py))
    (hkw : (cleanKeywordAndPage kw).1 ≠ "")
    (hst : lookupLast kvs "status" = some (.int 200))
    (hdata : pyOr ((lookupLast kvs "data").getD Py.null) (.dict []) = .dict dkvs)
    (hlist : pyOr ((lookupLast dkvs "list").getD Py.null) (.list []) = .list [])
    (hq : (lookupLast dkvs "query").getD (.dict []) = .dict qk)
    (htc : lookupLast dkvs "totalCount" = none) :
    ∃ res, search104Jobs kw (some (.dict kvs)) = (.ok (some res), 1) ∧
      res.jobs = [] ∧ res.totalCount = Py.null := by
  have hex : extractJobs (.dict dkvs) = .ok [] := extractJobs_list _ _ _ hlist rfl
  have hstrip : ¬ pyStrip kw = "" := by
    intro hsk
    exact hkw (by rw [cleanKeyword_of_strip_empty hsk])
  refine ⟨{ keyword := (cleanKeywordAndPage kw).1,
            page := (lookupLast qk "page").getD (.int (cleanKeywordAndPage kw).2),
            totalCount := (lookupLast dkvs "totalCount").getD .null,
            jobs := [], source := "https://www.104.com.tw/" }, ?_, rfl, ?_⟩
  · unfold search104Jobs
    rw [if_neg hstrip, if_neg hkw]
    show (jobsStage (cleanKeywordAndPage kw).1 (cleanKeywordAndPage kw).2 (Py.dict kvs), 1) = _
    rw [jobsStage_dict_ok (cleanKeywordAndPage kw).1 (cleanKeywordAndPage kw).2
      kvs dkvs qk [] hst hdata hex hq]
  · show (lookupLast dkvs "totalCount").getD .null = Py.null
    rw [htc]
    rfl

theorem c10_empty_list_still_mapping_witness :
    ∃ res, search104Jobs "python"
        (some (.dict [("status", .int 200), ("data", .null)]))
        = (.ok (some res), 1) ∧
      res.jobs = [] ∧ res.totalCount = Py.null :=
  c10_empty_list_still_mapping "python"
    [("status", .int 200), ("data", .null)] [] []
    (by decide) rfl rfl rfl rfl rfl

end ReactAgent

namespace ReactAgent

theorem strListOf_ok (l : List Py) (h : ∀ p ∈ l, ∃ s, p = Py.str s) :
    ∃ ss, strListOf l = .ok ss := by
  induction l with
  | nil => exact ⟨[], rfl⟩
  | cons p ps ih =>
    obtain ⟨s, rfl⟩ := h p (List.mem_cons_self p ps)
    obtain ⟨ss, hss⟩ := ih (fun q hq => h q (List.mem_cons_of_mem _ hq))
    refine ⟨s :: ss, ?_⟩
    unfold strListOf
    rw [hss]
    rfl

theorem joinComma_ok (l : List Py) (h : ∀ p ∈ l, ∃ s, p = Py.str s) :
    ∃ s, joinComma l = .ok s := by
  obtain ⟨ss, hss⟩ := strListOf_ok l h
  refine ⟨String.intercalate ", " ss, ?_⟩
  unfold joinComma
  rw [hss]
  rfl

theorem wfField_cases {o : Option Py} (h : wfField o = true) :
    truthy (o.getD Py.null) = false ∨ ∃ s, o.getD Py.null = Py.str s := by
  cases o with
  | none => exact Or.inl rfl
  | some p =>
    cases p with
    | str s => exact Or.inr ⟨s, rfl⟩
    | null => exact Or.inl rfl
    | bool b => exact Or.inl (by simpa [wfField] using h)
    | int n => exact Or.inl (by simpa [wfField] using h)
    | list xs => exact Or.inl (by simpa [wfField] using h)
    | dict d => exact Or.inl (by simpa [wfField] using h)

theorem resolveName_ok (loc : String) (mk : List (String × Py))
    (hn : wfField (lookupLast mk "name") = true)
    (ha : wfField (lookupLast mk "admin1") = true)
    (hc : wfField (lookupLast mk "country") = true) :
    ∃ s, resolveName (.dict mk) loc = .ok s := by
  unfold resolveName
  simp only [pyGet, pyGetD, Except.bind]
  cases hfe : (List.filter truthy [(lookupLast mk "name").getD Py.null,
      (lookupLast mk "admin1").getD Py.null, (lookupLast mk "country").getD Py.null]).isEmpty with
  | true => exact ⟨pyStrip loc, rfl⟩
  | false =>
    have hstr : ∀ p ∈ List.filter truthy [(lookupLast mk "name").getD Py.null,
        (lookupLast mk "admin1").getD Py.null, (lookupLast mk "country").getD Py.null],
        ∃ s, p = Py.str s := by
      intro p hp
      have htr : truthy p = true := List.of_mem_filter hp
      have hmem := List.mem_of_mem_filter hp
      simp only [List.mem_cons, List.not_mem_nil, or_false] at hmem
      rcases hmem with rfl | rfl | rfl
      · rcases wfField_cases hn with hfa | hs
        · rw [htr] at hfa
          exact absurd hfa (by simp)
        · exact hs
      · rcases wfField_cases ha with hfa | hs
        · rw [htr] at hfa
          exact absurd hfa (by simp)
        · exact hs
      · rcases wfField_cases hc with hfa | hs
        · rw [htr] at hfa
          exact absurd hfa (by simp)
        · exact hs
    obtain ⟨s, hjc⟩ := joinComma_ok _ hstr
    refine ⟨s, ?_⟩
    rw [hjc]
    rfl

end ReactAgent

namespace ReactAgent

theorem geoResolve_ok (loc : String) (g : Py) (h : wfGeoPayload g = true) :
    ∃ o, geoResolve loc g = .ok o := by
  unfold geoResolve
  cases ht : truthy g with
  | false => exact ⟨none, rfl⟩
  | true =>
    cases g with
    | dict kvs =>
      simp only [wfGeoPayload] at h
      rw [ht] at h
      simp only [Bool.not_true, Bool.false_or] at h
      cases hr : lookupLast kvs "results" with
      | none =>
        refine ⟨none, ?_⟩
        simp only [pyGet, pyGetD, Except.bind, hr]
        rfl
      | some r =>
        rw [hr] at h
        simp only [wfResults] at h
        cases htr : truthy r with
        | false =>
          refine ⟨none, ?_⟩
          simp only [pyGet, pyGetD, Except.bind, hr, Option.getD_some, htr]
          rfl
        | true =>
          rw [htr] at h
          simp only [Bool.not_true, Bool.false_or] at h
          cases r with
          | list rl =>
            cases rl with
            | nil => exact absurd htr (by simp [truthy])
            | cons m rest =>
              cases m with
              | dict mk =>
                simp only [wfResultsVal, Bool.and_eq_true] at h
                obtain ⟨⟨hn, ha⟩, hcy⟩ := h
                by_cases hnull : (isNull ((lookupLast mk "latitude").getD Py.null) ||
                    isNull ((lookupLast mk "longitude").getD Py.null)) = true
                · refine ⟨none, ?_⟩
                  simp only [pyGet, pyGetD, Except.bind, hr, Option.getD_some, htr, pySubscr,
                    pyIndex0, hnull]
                  rfl
                · obtain ⟨s, hs⟩ := resolveName_ok loc mk hn ha hcy
                  refine ⟨some ⟨(lookupLast mk "latitude").getD Py.null,
                    (lookupLast mk "longitude").getD Py.null, s⟩, ?_⟩
                  simp only [pyGet, pyGetD, Except.bind, hr, Option.getD_some, htr, pySubscr,
                    pyIndex0, Bool.not_eq_true] at hnull ⊢
                  rw [hnull, hs]
                  rfl
              | null => simp [wfResultsVal] at h
              | bool b => simp [wfResultsVal] at h
              | int n => simp [wfResultsVal] at h
              | str s => simp [wfResultsVal] at h
              | list l2 => simp [wfResultsVal] at h
          | null => simp [wfResultsVal] at h
          | bool b => simp [wfResultsVal] at h
          | int n => simp [wfResultsVal] at h
          | str s => simp [wfResultsVal] at h
          | dict d => simp [wfResultsVal] at h
    | null =>
      simp only [wfGeoPayload] at h
      rw [ht] at h
      exact Bool.noConfusion h
    | bool b =>
      simp only [wfGeoPayload] at h
      rw [ht] at h
      exact Bool.noConfusion h
    | int n =>
      simp only [wfGeoPayload] at h
      rw [ht] at h
      exact Bool.noConfusion h
    | str s =>
      simp only [wfGeoPayload] at h
      rw [ht] at h
      exact Bool.noConfusion h
    | list xs =>
      simp only [wfGeoPayload] at h
      rw [ht] at h
      exact Bool.noConfusion h

theorem forecastStage_ok (info : GeoInfo) (f : Py) (h : wfForecast f = true) :
    ∃ o, forecastStage info f = .ok o := by
  unfold forecastStage
  cases ht : truthy f with
  | false => exact ⟨none, rfl⟩
  | true =>
    cases f with
    | dict kvs =>
      simp only [pyContains, pyGet, pyGetD, Except.bind]
      cases hc : (lookupLast kvs "current").isSome with
      | false => exact ⟨none, rfl⟩
      | true => exact ⟨_, rfl⟩
    | null =>
      simp only [wfForecast] at h
      rw [ht] at h
      exact Bool.noConfusion h
    | bool b =>
      simp only [wfForecast] at h
      rw [ht] at h
      exact Bool.noConfusion h
    | int n =>
      simp only [wfForecast] at h
      rw [ht] at h
      exact Bool.noConfusion h
    | str s =>
      simp only [wfForecast] at h
      rw [ht] at h
      exact Bool.noConfusion h
    | list xs =>
      simp only [wfForecast] at h
      rw [ht] at h
      exact Bool.noConfusion h

end ReactAgent

namespace ReactAgent

theorem jobsStage_ok (c : String) (pg : Nat) (p : Py) (h : wfJobPayload p = true) :
    ∃ o, jobsStage c pg p = .ok o := by
  cases ht : truthy p with
  | false =>
    exact ⟨none, jobsStage_bad_payload_none c pg p (Or.inl ht)⟩
  | true =>
    cases p with
    | dict kvs =>
      simp only [wfJobPayload] at h
      rw [ht] at h
      simp only [Bool.not_true, Bool.false_or] at h
      cases hs : pyEq200 ((lookupLast kvs "status").getD Py.null) with
      | false =>
        exact ⟨none, jobsStage_bad_payload_none c pg _ (Or.inr ⟨kvs, rfl, hs⟩)⟩
      | true =>
        rw [hs] at h
        simp only [Bool.not_true, Bool.false_or] at h
        have hst : lookupLast kvs "status" = some (Py.int 200) := by
          cases hsv : lookupLast kvs "status" with
          | none =>
            rw [hsv] at hs
            exact Bool.noConfusion hs
          | some v =>
            rw [hsv] at hs
            cases v with
            | int n =>
              have hn : n = 200 := by simpa [pyEq200] using hs
              rw [hn]
            | null => exact Bool.noConfusion hs
            | bool b => exact Bool.noConfusion hs
            | str s => exact Bool.noConfusion hs
            | list xs => exact Bool.noConfusion hs
            | dict d => exact Bool.noConfusion hs
        cases hd : pyOr ((lookupLast kvs "data").getD Py.null) (Py.dict []) with
        | dict dkvs =>
          rw [hd] at h
          simp only [wfData, Bool.and_eq_true] at h
          obtain ⟨hjl, hq⟩ := h
          cases hl : pyOr ((lookupLast dkvs "list").getD Py.null) (Py.list []) with
          | list items =>
            rw [hl] at hjl
            simp only [wfJobList] at hjl
            obtain ⟨jobs, hmap, _⟩ := mapProject_ok (items.take 10)
              (fun j hj => projectJob_ok (by
                have := List.all_eq_true.mp hjl j hj
                simpa using this))
            have hex : extractJobs (.dict dkvs) = .ok jobs :=
              extractJobs_list _ _ _ hl hmap
            cases hqv : lookupLast dkvs "query" with
            | none =>
              refine ⟨_, jobsStage_dict_ok c pg kvs dkvs [] jobs hst hd hex ?_⟩
              rw [hqv]
              rfl
            | some q =>
              rw [hqv] at hq
              cases q with
              | dict qk =>
                refine ⟨_, jobsStage_dict_ok c pg kvs dkvs qk jobs hst hd hex ?_⟩
                rw [hqv]
                rfl
              | null => simp [wfQuery] at hq
              | bool b => simp [wfQuery] at hq
              | int n => simp [wfQuery] at hq
              | str s => simp [wfQuery] at hq
              | list xs => simp [wfQuery] at hq
          | null =>
            rw [hl] at hjl
            simp [wfJobList] at hjl
          | bool b =>
            rw [hl] at hjl
            simp [wfJobList] at hjl
          | int n =>
            rw [hl] at hjl
            simp [wfJobList] at hjl
          | str s =>
            rw [hl] at hjl
            simp [wfJobList] at hjl
          | dict d2 =>
            rw [hl] at hjl
            simp [wfJobList] at hjl
        | null =>
          rw [hd] at h
          simp [wfData] at h
        | bool b =>
          rw [hd] at h
          simp [wfData] at h
        | int n =>
          rw [hd] at h
          simp [wfData] at h
        | str s =>
          rw [hd] at h
          simp [wfData] at h
        | list xs =>
          rw [hd] at h
          simp [wfData] at h
    | null =>
      simp only [wfJobPayload] at h
      rw [ht] at h
      exact Bool.noConfusion h
    | bool b =>
      simp only [wfJobPayload] at h
      rw [ht] at h
      exact Bool.noConfusion h
    | int n =>
      simp only [wfJobPayload] at h
      rw [ht] at h
      exact Bool.noConfusion h
    | str s =>
      simp only [wfJobPayload] at h
      rw [ht] at h
      exact Bool.noConfusion h
    | list xs =>
      simp only [wfJobPayload] at h
      rw [ht] at h
      exact Bool.noConfusion h

end ReactAgent

namespace ReactAgent

/-- C1 is false as stated: an upstream job-search payload whose `data` field
is a truthy non-mapping (here the string "oops") makes `search_104_jobs`
raise `AttributeError` to the caller instead of returning `None`. -/
theorem c1_counterexample_nondict_data :
    (search104Jobs "python"
      (some (.dict [("status", .int 200), ("data", .str "oops")]))).1
      = .error .attributeError ∧
    ∀ r, (search104Jobs "python"
      (some (.dict [("status", .int 200), ("data", .str "oops")]))).1 ≠ .ok r :=
  ⟨rfl, fun _ h => Except.noConfusion h⟩

/-- C1 (amended): for upstream payloads that are well shaped at every
traversed position — dicts (or falsy values) where mappings are accessed, a
list of well-linked records as the job list, string-or-falsy geocoding name
fields — `get_weather` and `search_104_jobs` are exception-free: each returns
a result or `None`, and partial or malformed data of these shapes is mapped
to `None`.  (Truthy non-dict values at traversed mapping positions, e.g. a
non-dict `data` or `query` or a non-list `results`, instead raise.) -/
theorem c1_wellshaped_tools_never_raise (loc kw : String) (geo fore resp : Option Py)
    (hg : ∀ g, geo = some g → wfGeoPayload g = true)
    (hf : ∀ f, fore = some f → wfForecast f = true)
    (hr : ∀ p, resp = some p → wfJobPayload p = true) :
    (∃ w, (getWeather loc geo fore).1 = .ok w) ∧
    (∃ j, (search104Jobs kw resp).1 = .ok j) := by
  constructor
  · by_cases hl : pyStrip loc = ""
    · refine ⟨none, ?_⟩
      unfold getWeather
      rw [if_pos hl]
    · cases geo with
      | none =>
        refine ⟨none, ?_⟩
        unfold getWeather
        rw [if_neg hl]
      | some g =>
        obtain ⟨o, ho⟩ := geoResolve_ok loc g (hg g rfl)
        cases o with
        | none =>
          refine ⟨none, ?_⟩
          unfold getWeather
          rw [if_neg hl]
          show (geoStage loc g fore).1 = .ok none
          unfold geoStage
          rw [ho]
        | some info =>
          cases fore with
          | none =>
            refine ⟨none, ?_⟩
            unfold getWeather
            rw [if_neg hl]
            show (geoStage loc g none).1 = .ok none
            unfold geoStage
            rw [ho]
          | some f =>
            obtain ⟨w, hw⟩ := forecastStage_ok info f (hf f rfl)
            refine ⟨w, ?_⟩
            unfold getWeather
            rw [if_neg hl]
            show (geoStage loc g (some f)).1 = .ok w
            unfold geoStage
            rw [ho]
            show (forecastStage info f, 2).1 = .ok w
            exact hw
  · by_cases hk : pyStrip kw = ""
    · refine ⟨none, ?_⟩
      unfold search104Jobs
      rw [if_pos hk]
    · by_cases hck : (cleanKeywordAndPage kw).1 = ""
      · refine ⟨none, ?_⟩
        unfold search104Jobs
        rw [if_neg hk, if_pos hck]
      · cases resp with
        | none =>
          refine ⟨none, ?_⟩
          unfold search104Jobs
          rw [if_neg hk, if_neg hck]
        | some p =>
          obtain ⟨o, ho⟩ := jobsStage_ok (cleanKeywordAndPage kw).1
            (cleanKeywordAndPage kw).2 p (hr p rfl)
          refine ⟨o, ?_⟩
          unfold search104Jobs
          rw [if_neg hk, if_neg hck]
          show (jobsStage (cleanKeywordAndPage kw).1 (cleanKeywordAndPage kw).2 p, 1).1 = .ok o
          exact ho

theorem c1_wellshaped_tools_never_raise_witness :
    (∃ w, (getWeather "Taipei"
      (some (.dict [("results", .list [.dict [("latitude", .int 25), ("longitude", .int 121),
        ("name", .str "Taipei"), ("admin1", .str ""), ("country", .str "Taiwan")]])]))
      (some (.dict [("current", .dict [("temperature_2m", .int 20)])]))).1 = .ok w) ∧
    (∃ j, (search104Jobs "python"
      (some (.dict [("status", .int 200),
        ("data", .dict [("list", .list [.dict [("jobName", .str "x"),
          ("link", .dict [("job", .str "//www.104.com.tw/j")])]]),
          ("query", .dict [("page", .int 1)]), ("totalCount", .int 1)])]))).1 = .ok j) :=
  c1_wellshaped_tools_never_raise "Taipei" "python"
    (some (.dict [("results", .list [.dict [("latitude", .int 25), ("longitude", .int 121),
      ("name", .str "Taipei"), ("admin1", .str ""), ("country", .str "Taiwan")]])]))
    (some (.dict [("current", .dict [("temperature_2m", .int 20)])]))
    (some (.dict [("status", .int 200),
      ("data", .dict [("list", .list [.dict [("jobName", .str "x"),
        ("link", .dict [("job", .str "//www.104.com.tw/j")])]]),
        ("query", .dict [("page", .int 1)]), ("totalCount", .int 1)])]))
    (fun g hgq => by cases hgq; decide)
    (fun f hfq => by cases hfq; decide)
    (fun p hpq => by cases hpq; decide)

end ReactAgent
